import Mathlib

/-!
Shallow embedding of the persistent account/settings/stats store of the
GuessingGame repository (src/db.rs, `impl Database`), together with proofs
of the specified properties.

The store state is the contents of the three SQLite tables created by
`Database::new` (db.rs lines 11-44) plus the AUTOINCREMENT counter for
`users.id`.  Each public method of `Database` becomes a Lean function from
a state to a result paired with the successor state.  The bcrypt primitive
(crate `bcrypt`, functions `hash` and `verify`) is an external collaborator
and is modelled as a parameter record of fallible functions.

Note on foreign keys: `Database::new` declares
`FOREIGN KEY (user_id) REFERENCES users (id) ON DELETE CASCADE` on both the
`settings` and the `stats` table, but it never executes
`PRAGMA foreign_keys = ON`.  SQLite leaves foreign-key enforcement OFF by
default (and rusqlite's `Connection::open` does not change that), so the
declared constraints are inert: an INSERT into `settings` or `stats` is
accepted even when no matching `users` row exists.  The embedding of
`save_user_settings` and `update_game_stats` therefore performs no
referential check, matching what the program actually executes.
-/

deriving instance DecidableEq for Except

namespace GuessingGame

/-- Row of the `users` table: `id INTEGER PRIMARY KEY AUTOINCREMENT`,
`username TEXT UNIQUE NOT NULL`, `password_hash TEXT NOT NULL`
(db.rs lines 21-25). -/
structure UserRow where
  id : Int
  username : String
  password_hash : String
deriving DecidableEq

/-- Row of the `settings` table: `user_id INTEGER PRIMARY KEY` plus the three
integer fields (db.rs lines 26-32). -/
structure SettingsRow where
  user_id : Int
  min_range : Int
  max_range : Int
  max_guesses : Int
deriving DecidableEq

/-- Row of the `stats` table: `user_id INTEGER PRIMARY KEY` plus the three
counters, each `INTEGER DEFAULT 0` (db.rs lines 33-39). -/
structure StatsRow where
  user_id : Int
  games_played : Int
  games_won : Int
  games_lost : Int
deriving DecidableEq

/-- Contents of the three tables plus the AUTOINCREMENT counter that SQLite
keeps for `users.id`.  Row order in each list is insertion order, which is
the order a `SELECT ... WHERE` scan visits rows of these tiny tables. -/
structure DBState where
  users : List UserRow
  settings : List SettingsRow
  stats : List StatsRow
  nextId : Int
deriving DecidableEq

/-- State right after `Database::new` on a fresh file: three empty tables;
AUTOINCREMENT hands out 1 first. -/
def initDB : DBState := ⟨[], [], [], 1⟩

/-- The external bcrypt primitive used by db.rs (crate `bcrypt`):
`hash(password, cost)` and `verify(password, hash)`, both fallible.  The
store is verified for an arbitrary such primitive; facts like
"verify accepts what hash produced" enter as hypotheses. -/
structure Bcrypt where
  hash : String → Nat → Except String String
  verify : String → String → Except String Bool

/-- First row of `SELECT ... FROM users WHERE username = ?`
(db.rs line 61): scan in row order, return the first match. -/
def lookupUser : List UserRow → String → Option UserRow
  | [], _ => none
  | r :: rs, u => if r.username = u then some r else lookupUser rs u

/-- First row of `SELECT ... FROM settings WHERE user_id = ?`
(db.rs line 116). -/
def lookupSettings : List SettingsRow → Int → Option SettingsRow
  | [], _ => none
  | r :: rs, uid => if r.user_id = uid then some r else lookupSettings rs uid

/-- First row of `SELECT ... FROM stats WHERE user_id = ?`
(db.rs line 163). -/
def lookupStats : List StatsRow → Int → Option StatsRow
  | [], _ => none
  | r :: rs, uid => if r.user_id = uid then some r else lookupStats rs uid

/-- Failure of the `INSERT INTO users ...` statement: either the UNIQUE
constraint on `username` fired, or the engine failed for some other reason
(I/O error, busy database, ...). -/
inductive InsertError where
  | uniqueViolation
  | engineFailure (msg : String)
deriving DecidableEq

/-- Embedding of the `match` on `conn.execute(...)` in `register_user`
(db.rs lines 50-56): `Ok(_) => Ok(())` and `Err(_) => Err("Username already
exists")`.  The Rust arm `Err(_)` binds every rusqlite error, so every
`InsertError`, whatever its kind, is mapped to the same message. -/
def registerExecMap : Except InsertError Nat → Except String Unit
  | .ok _ => .ok ()
  | .error _ => .error "Username already exists"

/-- Deterministic semantics of `INSERT INTO users (username, password_hash)
VALUES (?, ?)` (db.rs lines 50-53): the UNIQUE constraint on `username`
rejects a duplicate; otherwise the row is appended with the next
AUTOINCREMENT id.  A spontaneous engine failure (`InsertError.engineFailure`)
is analyzed separately through `registerExecMap`, which is the code that
classifies whatever the engine returned. -/
def registerInsert (s : DBState) (u h : String) : Except InsertError Nat × DBState :=
  match lookupUser s.users u with
  | some _ => (.error .uniqueViolation, s)
  | none =>
      (.ok 1,
       { s with users := s.users ++ [⟨s.nextId, u, h⟩], nextId := s.nextId + 1 })

/-- Embedding of `Database::register_user` (db.rs lines 46-57): hash the
password with cost 10 (a hashing failure becomes "Failed to hash password"),
then run the INSERT and classify its outcome with `registerExecMap`. -/
def register_user (bc : Bcrypt) (s : DBState) (username password : String) :
    Except String Unit × DBState :=
  match bc.hash password 10 with
  | .error _ => (.error "Failed to hash password", s)
  | .ok password_hash =>
      (registerExecMap (registerInsert s username password_hash).1,
       (registerInsert s username password_hash).2)

/-- Embedding of `Database::authenticate_user` (db.rs lines 59-75): look the
username up; with no row the function falls through to
`Err("Invalid username or password")`.  With a row, `verify` is called; the
`?` on `map_err(|e| e.to_string())` at line 69 propagates a verification
ERROR as that error's own message, while a `false` verification falls
through to the same "Invalid username or password". -/
def authenticate_user (bc : Bcrypt) (s : DBState) (username password : String) :
    Except String Int × DBState :=
  match lookupUser s.users username with
  | none => (.error "Invalid username or password", s)
  | some r =>
      match bc.verify password r.password_hash with
      | .error e => (.error e, s)
      | .ok true => (.ok r.id, s)
      | .ok false => (.error "Invalid username or password", s)

/-- Semantics of the settings upsert statement of db.rs lines 92-97:
`INSERT ... ON CONFLICT(user_id) DO UPDATE SET` all three fields from
`excluded`, i.e. replace the existing row for `user_id` wholesale, or append
a new row if none exists.  No referential or range check is performed. -/
def upsertSettings (uid a b c : Int) : List SettingsRow → List SettingsRow
  | [] => [⟨uid, a, b, c⟩]
  | r :: rs =>
      if r.user_id = uid then ⟨uid, a, b, c⟩ :: rs
      else r :: upsertSettings uid a b c rs

/-- Embedding of `Database::save_user_settings` (db.rs lines 89-109): run the
upsert and return `Ok(())` (the logging calls have no store effect). -/
def save_user_settings (s : DBState) (user_id mn mx guesses : Int) :
    Except String Unit × DBState :=
  (.ok (), { s with settings := upsertSettings user_id mn mx guesses s.settings })

/-- Embedding of `Database::load_user_settings` (db.rs lines 111-134): return
the three fields of the row for `user_id`, or "No settings found" when there
is none.  The state is returned unchanged: the method only executes a
SELECT. -/
def load_user_settings (s : DBState) (user_id : Int) :
    Except String (Int × Int × Int) × DBState :=
  (match lookupSettings s.settings user_id with
   | some r => .ok (r.min_range, r.max_range, r.max_guesses)
   | none => .error "No settings found", s)

/-- The SQL text built by `Database::update_game_stats` (db.rs lines
137-145): a `format!` whose only placeholder is the column name, itself the
two-way selection `if won { "games_won" } else { "games_lost" }`.  The
`user_id` argument is in scope in the Rust function but never interpolated
into the text (it travels separately as the `?` parameter), which is why
this function ignores it. -/
def update_game_stats_query (user_id : Int) (won : Bool) : String :=
  let column := if won then "games_won" else "games_lost"
  "INSERT INTO stats (user_id, games_played, " ++ column ++ ") \n" ++
  "             VALUES (?, 1, 1) \n" ++
  "             ON CONFLICT(user_id) DO UPDATE SET \n" ++
  "             games_played=stats.games_played + 1, \n" ++
  "             " ++ column ++ "=stats." ++ column ++ " + 1"

/-- Semantics of the stats upsert: the INSERT supplies `games_played = 1` and
1 for the selected counter, the omitted counter taking its `DEFAULT 0`; on
conflict with the primary key `user_id` the existing row gets
`games_played + 1` and the selected counter `+ 1`. -/
def bumpStats (uid : Int) (won : Bool) : List StatsRow → List StatsRow
  | [] => [⟨uid, 1, if won then 1 else 0, if won then 0 else 1⟩]
  | r :: rs =>
      if r.user_id = uid then
        ⟨r.user_id, r.games_played + 1,
         r.games_won + (if won then 1 else 0),
         r.games_lost + (if won then 0 else 1)⟩ :: rs
      else r :: bumpStats uid won rs

/-- Embedding of `Database::update_game_stats` (db.rs lines 136-158): run the
stats upsert for `user_id` and return `Ok(())`. -/
def update_game_stats (s : DBState) (user_id : Int) (won : Bool) :
    Except String Unit × DBState :=
  (.ok (), { s with stats := bumpStats user_id won s.stats })

/-- Embedding of `Database::get_user_stats` (db.rs lines 160-178): return the
three counters of the row for `user_id`, or "No stats found" when there is
none.  The state is returned unchanged: the method only executes a
SELECT. -/
def get_user_stats (s : DBState) (user_id : Int) :
    Except String (Int × Int × Int) × DBState :=
  (match lookupStats s.stats user_id with
   | some r => .ok (r.games_played, r.games_won, r.games_lost)
   | none => .error "No stats found", s)

/-- One call of the store's public interface, used to quantify over arbitrary
sequences of operations. -/
inductive Op where
  | reg (u p : String)
  | auth (u p : String)
  | save (uid mn mx g : Int)
  | load (uid : Int)
  | record (uid : Int) (won : Bool)
  | stats (uid : Int)

/-- State reached after one operation (the result value is dropped). -/
def applyOp (bc : Bcrypt) (s : DBState) : Op → DBState
  | .reg u p => (register_user bc s u p).2
  | .auth u p => (authenticate_user bc s u p).2
  | .save uid mn mx g => (save_user_settings s uid mn mx g).2
  | .load uid => (load_user_settings s uid).2
  | .record uid w => (update_game_stats s uid w).2
  | .stats uid => (get_user_stats s uid).2

/-- State reached after a sequence of operations, first element first. -/
def applyOps (bc : Bcrypt) : DBState → List Op → DBState
  | s, [] => s
  | s, o :: os => applyOps bc (applyOp bc s o) os

/-- State after a sequence of `update_game_stats` calls for one user, first
flag first. -/
def recordOutcomes (s : DBState) (uid : Int) : List Bool → DBState
  | [] => s
  | w :: ws => recordOutcomes (update_game_stats s uid w).2 uid ws

/-- Number of `true` flags in a sequence of outcomes, as an integer. -/
def wonCount : List Bool → Int
  | [] => 0
  | b :: bs => (if b then 1 else 0) + wonCount bs

/-- Number of `false` flags in a sequence of outcomes, as an integer. -/
def lostCount : List Bool → Int
  | [] => 0
  | b :: bs => (if b then 0 else 1) + lostCount bs

/-- The stats invariant of the specification: every stats row satisfies
`games_played = games_won + games_lost`. -/
def statsInv (s : DBState) : Prop :=
  ∀ r ∈ s.stats, r.games_played = r.games_won + r.games_lost

/-- Row produced for a user by one stats upsert, as a function of the row the
lookup found beforehand (`none` = the INSERT arm, `some` = the UPDATE arm). -/
def bumpRow (uid : Int) (w : Bool) : Option StatsRow → StatsRow
  | none => ⟨uid, 1, if w then 1 else 0, if w then 0 else 1⟩
  | some r =>
      ⟨r.user_id, r.games_played + 1,
       r.games_won + (if w then 1 else 0),
       r.games_lost + (if w then 0 else 1)⟩

/-- Concrete stand-in for the bcrypt primitive, used to instantiate the
abstract theorems: hashing prefixes the password and verification compares
against that shape.  It satisfies the contract assumptions the theorems
take as hypotheses. -/
def bcModel : Bcrypt :=
  ⟨fun p _ => .ok ("$2b$10$" ++ p), fun p h => .ok (("$2b$10$" ++ p) == h)⟩

/-- Bcrypt stand-in whose verification routine always errors, as
`bcrypt::verify` does on a malformed stored hash. -/
def bcVerifyError : Bcrypt :=
  ⟨fun p _ => .ok p, fun _ _ => .error "invalid hash format"⟩

/-- Bcrypt stand-in whose verification routine always answers `false`,
modelling a wrong password. -/
def bcReject : Bcrypt := ⟨fun p _ => .ok p, fun _ _ => .ok false⟩

/-- State with a single registered user, for concrete instantiations. -/
def stAlice : DBState := ⟨[⟨1, "alice", "stored-hash"⟩], [], [], 2⟩

/-- State with a user that has a stats row but no settings row — the shape
the shipped UI produces, since it records outcomes but the settings-saving
call sites are disabled. -/
def stStatsOnly : DBState := ⟨[⟨1, "alice", "stored-hash"⟩], [], [⟨1, 3, 2, 1⟩], 2⟩

section Lemmas

/-- A username found in a prefix is still the first hit after appending. -/
lemma lookupUser_append_some (l l2 : List UserRow) (u : String) (r : UserRow)
    (h : lookupUser l u = some r) : lookupUser (l ++ l2) u = some r := by
  induction l with
  | nil => simp [lookupUser] at h
  | cons a as ih =>
    by_cases ha : a.username = u
    · simpa [lookupUser, ha] using h
    · simp [lookupUser, ha] at h ⊢
      exact ih h

/-- Looking a username up past a prefix that does not contain it. -/
lemma lookupUser_append_none (l l2 : List UserRow) (u : String)
    (h : lookupUser l u = none) : lookupUser (l ++ l2) u = lookupUser l2 u := by
  induction l with
  | nil => simp
  | cons a as ih =>
    by_cases ha : a.username = u
    · simp [lookupUser, ha] at h
    · simp [lookupUser, ha] at h ⊢
      exact ih h

/-- The authentication path only runs a SELECT: the state is unchanged on
every branch. -/
lemma authenticate_user_state (bc : Bcrypt) (s : DBState) (u p : String) :
    (authenticate_user bc s u p).2 = s := by
  unfold authenticate_user
  split
  · rfl
  · split <;> rfl

/-- Registration never touches the settings table. -/
lemma register_user_settings (bc : Bcrypt) (s : DBState) (u p : String) :
    (register_user bc s u p).2.settings = s.settings := by
  unfold register_user
  cases bc.hash p 10 with
  | error e => rfl
  | ok h =>
    unfold registerInsert
    cases lookupUser s.users u with
    | some r => rfl
    | none => rfl

/-- Registration never touches the stats table. -/
lemma register_user_stats (bc : Bcrypt) (s : DBState) (u p : String) :
    (register_user bc s u p).2.stats = s.stats := by
  unfold register_user
  cases bc.hash p 10 with
  | error e => rfl
  | ok h =>
    unfold registerInsert
    cases lookupUser s.users u with
    | some r => rfl
    | none => rfl

/-- A user row, once present, is still the row found for its username after
any single store operation: no operation updates or deletes `users` rows,
and a registration either fails or appends a fresh row at the end. -/
lemma lookupUser_applyOp (bc : Bcrypt) (s : DBState) (o : Op) (u : String)
    (r : UserRow) (h : lookupUser s.users u = some r) :
    lookupUser (applyOp bc s o).users u = some r := by
  cases o with
  | reg u2 p2 =>
    show lookupUser (register_user bc s u2 p2).2.users u = some r
    unfold register_user
    cases bc.hash p2 10 with
    | error e => exact h
    | ok hsh =>
      unfold registerInsert
      cases lookupUser s.users u2 with
      | some r2 => exact h
      | none => exact lookupUser_append_some _ _ _ _ h
  | auth u2 p2 =>
    show lookupUser (authenticate_user bc s u2 p2).2.users u = some r
    rw [authenticate_user_state]
    exact h
  | save uid mn mx g => exact h
  | load uid => exact h
  | record uid w => exact h
  | stats uid => exact h

/-- Iterated form of `lookupUser_applyOp` over a whole operation sequence. -/
lemma lookupUser_applyOps (bc : Bcrypt) (ops : List Op) :
    ∀ (s : DBState) (u : String) (r : UserRow),
      lookupUser s.users u = some r →
      lookupUser (applyOps bc s ops).users u = some r := by
  induction ops with
  | nil => intro s u r h; exact h
  | cons o os ih =>
    intro s u r h
    exact ih _ _ _ (lookupUser_applyOp bc s o u r h)

/-- Effect of one stats upsert on the row the lookup returns for its user. -/
lemma lookupStats_bump (uid : Int) (w : Bool) (l : List StatsRow) :
    lookupStats (bumpStats uid w l) uid = some (bumpRow uid w (lookupStats l uid)) := by
  induction l with
  | nil => simp [bumpStats, lookupStats, bumpRow]
  | cons a as ih =>
    by_cases ha : a.user_id = uid
    · simp [bumpStats, lookupStats, ha, bumpRow]
    · simp [bumpStats, lookupStats, ha, ih]

/-- Running a sequence of outcome recordings adds the length to
`games_played`, the number of wins to `games_won` and the number of losses
to `games_lost` of an existing row. -/
lemma lookupStats_recordOutcomes (uid : Int) (ws : List Bool) :
    ∀ (s : DBState) (r : StatsRow),
      lookupStats s.stats uid = some r →
      lookupStats (recordOutcomes s uid ws).stats uid
        = some ⟨r.user_id, r.games_played + ws.length,
                r.games_won + wonCount ws, r.games_lost + lostCount ws⟩ := by
  induction ws with
  | nil =>
    intro s r h
    cases r
    simpa [recordOutcomes, wonCount, lostCount] using h
  | cons w ws ih =>
    intro s r h
    have h1 : lookupStats ((update_game_stats s uid w).2).stats uid
        = some ⟨r.user_id, r.games_played + 1,
                r.games_won + (if w then 1 else 0),
                r.games_lost + (if w then 0 else 1)⟩ := by
      show lookupStats (bumpStats uid w s.stats) uid = _
      rw [lookupStats_bump, h]
      rfl
    have h2 := ih _ _ h1
    show lookupStats (recordOutcomes (update_game_stats s uid w).2 uid ws).stats uid = _
    rw [h2]
    simp only [Option.some.injEq, StatsRow.mk.injEq, wonCount, lostCount,
      List.length_cons]
    cases w <;> simp <;> constructor <;> omega

/-- Sum of the two outcome counters is the sequence length. -/
lemma wonCount_add_lostCount (ws : List Bool) :
    wonCount ws + lostCount ws = (ws.length : Int) := by
  induction ws with
  | nil => simp [wonCount, lostCount]
  | cons w ws ih =>
    simp only [wonCount, lostCount, List.length_cons]
    cases w <;> simp <;> omega

/-- One stats upsert preserves the per-row invariant
`games_played = games_won + games_lost`. -/
lemma bumpStats_inv (uid : Int) (w : Bool) :
    ∀ l : List StatsRow,
      (∀ r ∈ l, r.games_played = r.games_won + r.games_lost) →
      ∀ r ∈ bumpStats uid w l, r.games_played = r.games_won + r.games_lost := by
  intro l
  induction l with
  | nil =>
    intro _ r hr
    simp [bumpStats] at hr
    subst hr
    cases w <;> simp
  | cons a as ih =>
    intro hinv r hr
    by_cases ha : a.user_id = uid
    · simp [bumpStats, ha] at hr
      rcases hr with hr | hr
      · subst hr
        have := hinv a (List.mem_cons_self a as)
        cases w <;> simp <;> omega
      · exact hinv r (List.mem_cons_of_mem _ hr)
    · simp [bumpStats, ha] at hr
      rcases hr with hr | hr
      · rw [hr]
        exact hinv a (List.mem_cons_self a as)
      · exact ih (fun q hq => hinv q (List.mem_cons_of_mem _ hq)) r hr

/-- Every single store operation preserves the stats invariant. -/
lemma statsInv_applyOp (bc : Bcrypt) (s : DBState) (o : Op)
    (h : statsInv s) : statsInv (applyOp bc s o) := by
  cases o with
  | reg u p =>
    intro r hr
    apply h
    rwa [show (applyOp bc s (Op.reg u p)).stats = s.stats from
      register_user_stats bc s u p] at hr
  | auth u p =>
    intro r hr
    apply h
    rwa [show (applyOp bc s (Op.auth u p)).stats = s.stats by
      show (authenticate_user bc s u p).2.stats = s.stats
      rw [authenticate_user_state]] at hr
  | save uid mn mx g => exact h
  | load uid => exact h
  | record uid w =>
    intro r hr
    exact bumpStats_inv uid w s.stats h r hr
  | stats uid => exact h

/-- Saving settings always lands the given triple as the row found for the
user, whatever was there before. -/
lemma lookupSettings_upsert (uid a b c : Int) (l : List SettingsRow) :
    lookupSettings (upsertSettings uid a b c l) uid = some ⟨uid, a, b, c⟩ := by
  induction l with
  | nil => simp [upsertSettings, lookupSettings]
  | cons r rs ih =>
    by_cases hr : r.user_id = uid
    · simp [upsertSettings, lookupSettings, hr]
    · simp [upsertSettings, lookupSettings, hr, ih]

end Lemmas

/-- C1: after any nonempty sequence of N `update_game_stats` calls for a user
with no prior stats row, `get_user_stats` returns (played, won, lost) with
played = N = won + lost, won counting the true flags and lost the false
flags; the first call creates the row as (1, won flag, lost flag), every
later call adds 1 to `games_played` and to exactly one of the two outcome
counters; and the invariant games_played = games_won + games_lost holds for
every row after every store operation, starting from the fresh database. -/
theorem stats_counts_and_invariant (bc : Bcrypt) (s : DBState) (uid : Int)
    (flags : List Bool) (hrow : lookupStats s.stats uid = none)
    (hne : flags ≠ []) :
    (get_user_stats (recordOutcomes s uid flags) uid).1
        = .ok ((flags.length : Int), wonCount flags, lostCount flags)
    ∧ wonCount flags + lostCount flags = (flags.length : Int)
    ∧ (∀ w, lookupStats (update_game_stats s uid w).2.stats uid
          = some ⟨uid, 1, if w then 1 else 0, if w then 0 else 1⟩)
    ∧ (∀ (t : DBState) (r : StatsRow) (w : Bool),
          lookupStats t.stats uid = some r →
          lookupStats (update_game_stats t uid w).2.stats uid
            = some ⟨r.user_id, r.games_played + 1,
                    r.games_won + (if w then 1 else 0),
                    r.games_lost + (if w then 0 else 1)⟩)
    ∧ (∀ (t : DBState) (o : Op), statsInv t → statsInv (applyOp bc t o))
    ∧ statsInv initDB := by
  have hfirst : ∀ w, lookupStats (update_game_stats s uid w).2.stats uid
      = some ⟨uid, 1, if w then 1 else 0, if w then 0 else 1⟩ := by
    intro w
    show lookupStats (bumpStats uid w s.stats) uid = _
    rw [lookupStats_bump, hrow]
    rfl
  refine ⟨?_, wonCount_add_lostCount flags, hfirst, ?_, ?_, ?_⟩
  · cases flags with
    | nil => exact absurd rfl hne
    | cons w ws =>
      have h2 := lookupStats_recordOutcomes uid ws _ _ (hfirst w)
      show (get_user_stats
        (recordOutcomes (update_game_stats s uid w).2 uid ws) uid).1 = _
      unfold get_user_stats
      rw [h2]
      simp only [Except.ok.injEq, Prod.mk.injEq, wonCount, lostCount,
        List.length_cons]
      cases w <;> simp <;> omega
  · intro t r w h
    show lookupStats (bumpStats uid w t.stats) uid = _
    rw [lookupStats_bump, h]
    rfl
  · intro t o h
    exact statsInv_applyOp bc t o h
  · intro r hr
    simp [initDB] at hr

/-- Witness for C1 at the spec's own example: outcomes true, false, true for
user 7 on the fresh database give stats (3, 2, 1). -/
theorem stats_counts_and_invariant_witness :
    (get_user_stats (recordOutcomes initDB 7 [true, false, true]) 7).1
      = .ok (3, 2, 1) := by
  have h := (stats_counts_and_invariant bcModel initDB 7 [true, false, true]
    rfl (by decide)).1
  simpa using h

/-- C2: registering a fresh username with a password the hash primitive
accepts succeeds, and authenticating with that username and password returns
the id assigned at registration (the AUTOINCREMENT value), after any further
sequence of store operations — in particular on every one of repeated
authenticate calls. -/
theorem register_then_authenticate (bc : Bcrypt) (s : DBState)
    (u p hsh : String) (hp : p ≠ "")
    (hhash : bc.hash p 10 = .ok hsh)
    (hver : bc.verify p hsh = .ok true)
    (hfresh : lookupUser s.users u = none) :
    (register_user bc s u p).1 = .ok ()
    ∧ ∀ ops : List Op,
        (authenticate_user bc (applyOps bc (register_user bc s u p).2 ops) u p).1
          = .ok s.nextId := by
  have hreg : register_user bc s u p =
      (.ok (), DBState.mk (s.users ++ [⟨s.nextId, u, hsh⟩])
        s.settings s.stats (s.nextId + 1)) := by
    simp [register_user, hhash, registerInsert, hfresh, registerExecMap]
  refine ⟨by rw [hreg], ?_⟩
  intro ops
  have hlook : lookupUser (register_user bc s u p).2.users u
      = some ⟨s.nextId, u, hsh⟩ := by
    rw [hreg]
    show lookupUser (s.users ++ [⟨s.nextId, u, hsh⟩]) u = _
    rw [lookupUser_append_none _ _ _ hfresh]
    simp [lookupUser]
  have hlook2 := lookupUser_applyOps bc ops _ u _ hlook
  simp [authenticate_user, hlook2, hver]

/-- Witness for C2: registering alice/pw on the fresh store succeeds and
authenticating right afterwards returns id 1. -/
theorem register_then_authenticate_witness :
    (register_user bcModel initDB "alice" "pw").1 = .ok ()
    ∧ (authenticate_user bcModel
        (applyOps bcModel (register_user bcModel initDB "alice" "pw").2 [])
        "alice" "pw").1 = .ok 1 := by
  have h := register_then_authenticate bcModel initDB "alice" "pw"
    ("$2b$10$" ++ "pw") (by decide) rfl (by decide) rfl
  exact ⟨h.1, h.2 []⟩

/-- C3 counterexample: a non-uniqueness backing-store failure of the INSERT
(here a disk I/O error) is reported by register_user's result mapping as
"Username already exists", the very same value produced for a genuine
uniqueness violation — not as a distinct opaque storage error. -/
theorem register_error_collapse_counterexample :
    registerExecMap (.error (.engineFailure "disk I/O error"))
        = .error "Username already exists"
    ∧ registerExecMap (.error (.engineFailure "disk I/O error"))
        = registerExecMap (.error .uniqueViolation) :=
  ⟨rfl, rfl⟩

/-- C3 amended: register_user reports "Username already exists" whenever the
INSERT fails, for any failure kind, uniqueness violation or not; its only
possible outcomes are success, the hashing failure message, and that one
insert-failure message, so no distinct storage-error outcome exists. -/
theorem register_error_collapse :
    (∀ e : InsertError,
        registerExecMap (.error e) = .error "Username already exists")
    ∧ ∀ (bc : Bcrypt) (s : DBState) (u p : String),
        (register_user bc s u p).1 = .error "Failed to hash password"
        ∨ (register_user bc s u p).1 = .ok ()
        ∨ (register_user bc s u p).1 = .error "Username already exists" := by
  refine ⟨fun e => rfl, ?_⟩
  intro bc s u p
  unfold register_user
  cases bc.hash p 10 with
  | error e => exact Or.inl rfl
  | ok h =>
    unfold registerInsert
    cases lookupUser s.users u with
    | some r => exact Or.inr (Or.inr rfl)
    | none => exact Or.inr (Or.inl rfl)

/-- C4 counterexample: when the stored-hash verification routine itself
errors, authenticate_user propagates that error's own message, which is not
the InvalidCredentials message "Invalid username or password". -/
theorem authenticate_verify_error_counterexample :
    (authenticate_user bcVerifyError stAlice "alice" "pw").1
        = .error "invalid hash format"
    ∧ (Except.error "invalid hash format" : Except String Int)
        ≠ .error "Invalid username or password" := by
  refine ⟨by decide, by decide⟩

/-- C4 amended: when verification returns false, authenticate_user fails
with "Invalid username or password"; but when the verification routine
itself errors, the operation fails with that error's own message, propagated
as-is, not with the InvalidCredentials message. -/
theorem authenticate_verify_outcomes (bc : Bcrypt) (s : DBState)
    (u p : String) (r : UserRow) (e : String)
    (hrow : lookupUser s.users u = some r) :
    (bc.verify p r.password_hash = .ok false →
        (authenticate_user bc s u p).1 = .error "Invalid username or password")
    ∧ (bc.verify p r.password_hash = .error e →
        (authenticate_user bc s u p).1 = .error e) := by
  constructor
  · intro hv
    simp [authenticate_user, hrow, hv]
  · intro hv
    simp [authenticate_user, hrow, hv]

/-- Witness for C4's amended statement, at the concrete erroring verifier. -/
theorem authenticate_verify_outcomes_witness :
    (authenticate_user bcVerifyError stAlice "alice" "pw").1
      = .error "invalid hash format" :=
  (authenticate_verify_outcomes bcVerifyError stAlice "alice" "pw"
    ⟨1, "alice", "stored-hash"⟩ "invalid hash format" (by decide)).2 rfl

/-- C5: on the freshly created database, which has no users at all,
save_user_settings and update_game_stats for user id 999 both succeed and
create a settings row and a stats row whose user_id matches no users row —
the declared foreign keys are not enforced (PRAGMA foreign_keys is never
issued), so orphaned rows can exist, contrary to the claim. -/
theorem orphan_rows_possible :
    (save_user_settings initDB 999 1 100 5).1 = .ok ()
    ∧ ((save_user_settings initDB 999 1 100 5).2).settings = [⟨999, 1, 100, 5⟩]
    ∧ ((save_user_settings initDB 999 1 100 5).2).users = []
    ∧ (update_game_stats initDB 999 true).1 = .ok ()
    ∧ ((update_game_stats initDB 999 true).2).stats = [⟨999, 1, 1, 0⟩]
    ∧ ((update_game_stats initDB 999 true).2).users = [] := by
  refine ⟨rfl, by decide, rfl, rfl, by decide, rfl⟩

/-- C6: saving settings (a, b, c) for a user and loading returns exactly
(a, b, c), and a second save (x, y, z) followed by a load returns exactly
(x, y, z) — a full overwrite of all three fields with no validation relating
the bounds, for arbitrary integers and arbitrary prior state. -/
theorem settings_save_load_roundtrip :
    ∀ (s : DBState) (uid a b c x y z : Int),
      (save_user_settings s uid a b c).1 = .ok ()
      ∧ (load_user_settings (save_user_settings s uid a b c).2 uid).1
          = .ok (a, b, c)
      ∧ (load_user_settings
            (save_user_settings (save_user_settings s uid a b c).2 uid x y z).2
            uid).1 = .ok (x, y, z) := by
  intro s uid a b c x y z
  refine ⟨rfl, ?_, ?_⟩
  · show (load_user_settings
        { s with settings := upsertSettings uid a b c s.settings } uid).1 = _
    unfold load_user_settings
    rw [lookupSettings_upsert]
  · unfold load_user_settings
    show (match lookupSettings
        (upsertSettings uid x y z
          (upsertSettings uid a b c s.settings)) uid with
      | some r => Except.ok (r.min_range, r.max_range, r.max_guesses)
      | none => Except.error "No settings found") = _
    rw [lookupSettings_upsert]

/-- C7: two independent guarantees for every state and user id — whenever
the user has no settings row, load_user_settings fails with the
"No settings found" error (whatever the stats table holds), and whenever
the user has no stats row, get_user_stats fails with the "No stats found"
error (whatever the settings table holds); neither returns a zeroed or
default triple. -/
theorem missing_rows_not_found (s : DBState) (uid : Int) :
    (lookupSettings s.settings uid = none →
        (load_user_settings s uid).1 = .error "No settings found")
    ∧ (lookupStats s.stats uid = none →
        (get_user_stats s uid).1 = .error "No stats found") := by
  constructor
  · intro hs
    unfold load_user_settings
    rw [hs]
  · intro ht
    unfold get_user_stats
    rw [ht]

/-- Witness for C7: a user with a stats row but no settings row still gets
"No settings found" from the settings reader, and a user with no stats row
gets "No stats found" from the stats reader. -/
theorem missing_rows_not_found_witness :
    (load_user_settings stStatsOnly 1).1 = .error "No settings found"
    ∧ (get_user_stats initDB 42).1 = .error "No stats found" :=
  ⟨(missing_rows_not_found stStatsOnly 1).1 rfl,
   (missing_rows_not_found initDB 42).2 rfl⟩

/-- C8: a registered username with a wrong password (verification answers
false) and a username with no users row fail with the identical
"Invalid username or password" error: the two cases are indistinguishable
from the result. -/
theorem authenticate_failures_indistinguishable (bc : Bcrypt) (s : DBState)
    (u p : String) (r : UserRow)
    (hrow : lookupUser s.users u = some r)
    (hver : bc.verify p r.password_hash = .ok false) :
    (authenticate_user bc s u p).1 = .error "Invalid username or password"
    ∧ ∀ u2 p2 : String, lookupUser s.users u2 = none →
        (authenticate_user bc s u2 p2).1
          = .error "Invalid username or password" := by
  constructor
  · simp [authenticate_user, hrow, hver]
  · intro u2 p2 h2
    simp [authenticate_user, h2]

/-- Witness for C8: wrong password for alice and unknown username bob give
the same error value. -/
theorem authenticate_failures_indistinguishable_witness :
    (authenticate_user bcReject stAlice "alice" "wrong").1
        = .error "Invalid username or password"
    ∧ (authenticate_user bcReject stAlice "bob" "x").1
        = .error "Invalid username or password" :=
  ⟨(authenticate_failures_indistinguishable bcReject stAlice "alice" "wrong"
      ⟨1, "alice", "stored-hash"⟩ (by decide) rfl).1,
   (authenticate_failures_indistinguishable bcReject stAlice "alice" "wrong"
      ⟨1, "alice", "stored-hash"⟩ (by decide) rfl).2 "bob" "x" (by decide)⟩

/-- C9: the SQL text update_game_stats executes depends only on the won
flag, never on the user id or any other caller-controlled text, and is one
of exactly two fixed strings, one naming games_won and one naming
games_lost. -/
theorem stats_query_fixed :
    ∀ (uid uid2 : Int) (won : Bool),
      update_game_stats_query uid won = update_game_stats_query uid2 won
      ∧ update_game_stats_query uid true
          = "INSERT INTO stats (user_id, games_played, games_won) \n             VALUES (?, 1, 1) \n             ON CONFLICT(user_id) DO UPDATE SET \n             games_played=stats.games_played + 1, \n             games_won=stats.games_won + 1"
      ∧ update_game_stats_query uid false
          = "INSERT INTO stats (user_id, games_played, games_lost) \n             VALUES (?, 1, 1) \n             ON CONFLICT(user_id) DO UPDATE SET \n             games_played=stats.games_played + 1, \n             games_lost=stats.games_lost + 1" := by
  intro uid uid2 won
  exact ⟨rfl, rfl, rfl⟩

/-- C10: load_user_settings and get_user_stats leave the store state — all
three tables and the id counter — exactly as it was, whether they succeed or
fail. -/
theorem reads_preserve_state :
    ∀ (s : DBState) (uid : Int),
      (load_user_settings s uid).2 = s ∧ (get_user_stats s uid).2 = s :=
  fun _ _ => ⟨rfl, rfl⟩

end GuessingGame
